import Mathlib

/-!
Shallow embedding of `src/pomodoro/pomodoro.py` (a Waybar pomodoro timer)
and verification of its specification claims.

The Python program keeps one mutable `Pomodoro` object; we model it as an
immutable record threaded through pure transition functions.  Python `int`
is unbounded, so `time_left` and `pomodoros` are `Int`.  Wall-clock reads
(`datetime.now()`) are passed in as explicit parameters: `elapsed` is the
value of `int((now - last_update_date).total_seconds())` at line 122/124,
and `past_4am` is the truth value of `datetime.now() > self._next_4_am`
at line 133.  Desktop notifications (`send_notification`, which shells out
to `notify-send`) are modelled as a list of emitted notifications returned
alongside the new record.
-/

namespace PomodoroSpec

/-- Module-level constants of pomodoro.py (lines 16-32).  `Debug` is
`False` unless the `DEBUG` environment variable is set; we model the
default environment. -/
def Debug : Bool := false

def POMODORO : Int := 25 * 60

def SHORT_BREAK : Int := 5 * 60

def LONG_BREAK : Int := 15 * 60

def ENABLE_LONG_BREAK : Bool := true

def ENABLE_NOTIFICATIONS : Bool := true

def ENABLE_DAILY_RESET : Bool := false

/-- `TimerState` enum (pomodoro.py lines 51-58). -/
inductive TimerState where
  | idle
  | work
  | short_break
  | long_break
  | paused
deriving DecidableEq, Repr

/-- The `Pomodoro` object state (lines 69-75): `time_left`, `pomodoros`,
`previous_status`, `_status`.  `last_update_date` and `_next_4_am` are
datetimes consumed only through the `elapsed` / `past_4am` observations,
so they are not stored in the record. -/
structure Pomodoro where
  time_left : Int
  pomodoros : Int
  previous_status : TimerState
  status : TimerState
deriving DecidableEq, Repr

/-- `Pomodoro.__init__` (lines 69-75): fresh default record. -/
def initPomodoro : Pomodoro :=
  { time_left := 0, pomodoros := 0,
    previous_status := TimerState.idle, status := TimerState.idle }

/-- The `status` property setter (lines 90-93): every assignment
`self.status = value` records the old status in `previous_status`. -/
def setStatus (p : Pomodoro) (value : TimerState) : Pomodoro :=
  { p with previous_status := p.status, status := value }

/-- One desktop notification request (a `notify-send` invocation). -/
structure Notification where
  title : String
  message : String
deriving DecidableEq, Repr

/-- `send_notification` (lines 226-240): fires only when not in debug
mode and notifications are enabled.  We model the subprocess call as the
emitted notification value. -/
def send_notification (title message : String) : List Notification :=
  if Debug = false ∧ ENABLE_NOTIFICATIONS = true then
    [{ title := title, message := message }]
  else
    []

/-- `Pomodoro.next_break` (lines 95-108): increment `pomodoros`, then a
long break every 4th pomodoro (when enabled), otherwise a short break. -/
def next_break (p : Pomodoro) : Pomodoro :=
  let p := { p with pomodoros := p.pomodoros + 1 }
  if p.pomodoros % 4 = 0 ∧ ENABLE_LONG_BREAK = true then
    { setStatus p TimerState.long_break with time_left := LONG_BREAK }
  else
    { setStatus p TimerState.short_break with time_left := SHORT_BREAK }

/-- Lines 117-132 of `Pomodoro.update_status`: in an active phase,
subtract `abs(int(elapsed.total_seconds()))` clamped at 0, and perform
the edge-triggered automatic transition with its notification.
`original_time_left` of line 123 is `p.time_left`; the record after the
line-124 assignment is `{ p with time_left := max 0 (p.time_left - |elapsed|) }`,
whose `status` is still `p.status`. -/
def update_status_core (p : Pomodoro) (elapsed : Int) :
    Pomodoro × List Notification :=
  if p.status = TimerState.work ∨ p.status = TimerState.short_break ∨
      p.status = TimerState.long_break then
    if max 0 (p.time_left - |elapsed|) ≤ 0 ∧ p.time_left > 0 then
      if p.status = TimerState.work then
        (next_break { p with time_left := max 0 (p.time_left - |elapsed|) },
         send_notification "Pomodoro Complete!" "Time for a break")
      else
        ({ setStatus { p with time_left := max 0 (p.time_left - |elapsed|) }
              TimerState.work with time_left := POMODORO },
         send_notification "Break Complete!" "Time to focus")
    else
      ({ p with time_left := max 0 (p.time_left - |elapsed|) }, [])
  else
    (p, [])

/-- `Pomodoro.update_status` (lines 110-135): the active-phase step of
lines 117-132 followed by the daily-reset block of lines 133-135 (dead
code here, since `ENABLE_DAILY_RESET` is `False`; the `_next_4_am`
bookkeeping touches no modelled field). -/
def update_status (p : Pomodoro) (elapsed : Int) (past_4am : Bool) :
    Pomodoro × List Notification :=
  let r := update_status_core p elapsed
  if ENABLE_DAILY_RESET = true ∧ past_4am = true then
    ({ r.1 with pomodoros := 0 }, r.2)
  else
    r

/-- `Pomodoro.toggle` (lines 137-151). -/
def toggle (p : Pomodoro) : Pomodoro :=
  if p.status = TimerState.idle then
    { setStatus p TimerState.work with time_left := POMODORO }
  else if p.status = TimerState.paused then
    setStatus p p.previous_status
  else
    setStatus p TimerState.paused

/-- `Pomodoro.reset` (lines 153-160). -/
def reset (p : Pomodoro) : Pomodoro :=
  { setStatus p TimerState.idle with time_left := 0, pomodoros := 0 }

/-- `Pomodoro.skip` (lines 162-176). -/
def skip (p : Pomodoro) : Pomodoro :=
  if (p.status = TimerState.short_break ∨ p.status = TimerState.long_break) ∨
      (p.status = TimerState.paused ∧
        (p.previous_status = TimerState.short_break ∨
         p.previous_status = TimerState.long_break)) then
    { setStatus p TimerState.work with time_left := POMODORO }
  else
    next_break p

/-- `Pomodoro.stop` (lines 178-181). -/
def stop (p : Pomodoro) : Pomodoro :=
  { setStatus p TimerState.idle with time_left := 0 }

/-- Outcome of reading the persisted pickle in `get_pomodoro`
(lines 184-192).  The `except` tuple at line 190 names exactly
`FileNotFoundError, PermissionError, EOFError, pickle.UnpicklingError`,
so the read can end in seven ways:
  * `absent` — `DATA_FILE.exists()` is false;
  * `openCaught` — open/read raises `FileNotFoundError` or
    `PermissionError` (inside the tuple);
  * `openUncaught` — open/read raises an `OSError` outside the tuple
    (e.g. `IsADirectoryError`);
  * `decodeCaught` — `pickle.load` raises `EOFError` or
    `pickle.UnpicklingError` (corrupt or truncated data);
  * `decodeUncaught` — `pickle.load` raises an exception outside the
    tuple (e.g. `AttributeError` or `ImportError` from a
    format-mismatched pickle referencing a missing class);
  * `okRecord` — `pickle.load` returns a `Pomodoro` object;
  * `okNonRecord` — `pickle.load` succeeds but returns a value that is
    not a `Pomodoro` (a pickle of some other type). -/
inductive StorageRead where
  | absent
  | openCaught
  | openUncaught
  | decodeCaught
  | decodeUncaught
  | okRecord (p : Pomodoro)
  | okNonRecord
deriving DecidableEq, Repr

/-- What `get_pomodoro` delivers to its caller: a `Pomodoro` object, the
decoded non-record value passed through unchanged (`cast` at line 189 is
a static no-op), or an exception propagating out of the function. -/
inductive LoadOutcome where
  | returned (p : Pomodoro)
  | returnedNonRecord
  | raised
deriving DecidableEq, Repr

/-- `get_pomodoro` (lines 184-192): the `try` block returns whatever the
pickle decodes to; only the four exceptions named in the `except` tuple
fall through to the fresh-default return, and any other exception
escapes the function. -/
def get_pomodoro : StorageRead → LoadOutcome
  | StorageRead.absent => LoadOutcome.returned initPomodoro
  | StorageRead.openCaught => LoadOutcome.returned initPomodoro
  | StorageRead.openUncaught => LoadOutcome.raised
  | StorageRead.decodeCaught => LoadOutcome.returned initPomodoro
  | StorageRead.decodeUncaught => LoadOutcome.raised
  | StorageRead.okRecord p => LoadOutcome.returned p
  | StorageRead.okNonRecord => LoadOutcome.returnedNonRecord

/-- The CLI `Action` enum (lines 35-42). -/
inductive Action where
  | status
  | toggle
  | skip
  | reset
  | stop
deriving DecidableEq, Repr

/-- The `match args.action` dispatch of `main` (lines 257-267). -/
def runAction : Action → Pomodoro → Pomodoro
  | Action.toggle, p => toggle p
  | Action.skip, p => skip p
  | Action.reset, p => reset p
  | Action.stop, p => stop p
  | Action.status, p => p

/-- One invocation of `main` (lines 255-267) after loading: update the
status, then apply the requested action.  All notifications of an
invocation come from `update_status`. -/
def main_invocation (a : Action) (p : Pomodoro) (elapsed : Int)
    (past_4am : Bool) : Pomodoro × List Notification :=
  let r := update_status p elapsed past_4am
  (runAction a r.1, r.2)

/-- The operations the invariant claims quantify over: the time-driven
`advance` (= `update_status` with its clock observations) and the
explicit mutators. -/
inductive Op where
  | advance (elapsed : Int) (past_4am : Bool)
  | toggle
  | skip
  | reset
  | stop
  | next_break
deriving DecidableEq, Repr

/-- Apply one operation to a record. -/
def applyOp : Op → Pomodoro → Pomodoro
  | Op.advance e b, p => (update_status p e b).1
  | Op.toggle, p => toggle p
  | Op.skip, p => skip p
  | Op.reset, p => reset p
  | Op.stop, p => stop p
  | Op.next_break, p => next_break p

/-- A record is in an active (time-consuming) phase. -/
def isActive (p : Pomodoro) : Prop :=
  p.status = TimerState.work ∨ p.status = TimerState.short_break ∨
    p.status = TimerState.long_break

instance (p : Pomodoro) : Decidable (isActive p) := by
  unfold isActive; infer_instance

/-- With the daily reset disabled, `update_status` is its active-phase
core. -/
theorem update_status_eq_core (p : Pomodoro) (e : Int) (b : Bool) :
    update_status p e b = update_status_core p e := by
  simp [update_status, ENABLE_DAILY_RESET]

/-- C1, as stated, is false on the code: starting from the default IDLE
record, `skip` alternates between granting a break and forcing WORK, so
the 2nd call already yields WORK (not SHORT_BREAK), the 4th yields WORK
(not LONG_BREAK), and `pomodoros` ends at 2, not 4. -/
theorem C1_skip_four_counterexample :
    ¬ ((skip initPomodoro).status = TimerState.short_break ∧
       (skip (skip initPomodoro)).status = TimerState.short_break ∧
       (skip (skip (skip initPomodoro))).status = TimerState.short_break ∧
       (skip (skip (skip (skip initPomodoro)))).status =
         TimerState.long_break ∧
       (skip (skip (skip (skip initPomodoro)))).pomodoros = 4) := by
  decide

/-- C1 (amended): calling `skip()` 4 times consecutively from the default
IDLE record yields SHORT_BREAK, WORK, SHORT_BREAK, WORK in that order
(each break-entering call incrementing `pomodoros`), ending with
`pomodoros = 2`. -/
theorem C1_skip_four_amended :
    (skip initPomodoro).status = TimerState.short_break ∧
    (skip initPomodoro).pomodoros = 1 ∧
    (skip (skip initPomodoro)).status = TimerState.work ∧
    (skip (skip (skip initPomodoro))).status = TimerState.short_break ∧
    (skip (skip (skip initPomodoro))).pomodoros = 2 ∧
    (skip (skip (skip (skip initPomodoro)))).status = TimerState.work ∧
    (skip (skip (skip (skip initPomodoro)))).pomodoros = 2 := by
  decide

/-- C2, as stated, is false on the code: `update_status` subtracts
`abs(int(elapsed))`, not `max(0, elapsed)`.  On a WORK record with
`time_left = 100` and a clock that moved 5 seconds backwards
(`now - last_update = -5`), the claim says `time_left` is unchanged
(100), but the code yields 95. -/
theorem C2_clock_anomaly_counterexample :
    (update_status
        (⟨100, 0, TimerState.idle, TimerState.work⟩ : Pomodoro)
        (-5) false).1.time_left = 95 ∧
    (100 : Int) - max 0 (-5 : Int) = 100 ∧
    ¬ (update_status
        (⟨100, 0, TimerState.idle, TimerState.work⟩ : Pomodoro)
        (-5) false).1.time_left = 100 := by
  decide

/-- C2 (amended): in an active phase, the elapsed time subtracted from
`time_left` is `|now - last_update|` (the absolute value, so a backwards
clock jump shortens the timer instead of leaving it unchanged); as long
as the phase does not complete, the new `time_left` is exactly
`time_left - |elapsed|`, and the subtraction step never increases
`time_left`. -/
theorem C2_elapsed_subtraction_amended (p : Pomodoro) (e : Int) (b : Bool)
    (h : isActive p) (hpos : 0 < p.time_left - |e|) :
    (update_status p e b).1.time_left = p.time_left - |e| ∧
    (update_status p e b).1.time_left ≤ p.time_left := by
  have habs : 0 ≤ |e| := abs_nonneg e
  have hmax : max 0 (p.time_left - |e|) = p.time_left - |e| :=
    max_eq_right hpos.le
  unfold isActive at h
  rw [update_status_eq_core]
  unfold update_status_core
  rw [if_pos h, if_neg (by rw [hmax]; omega)]
  refine ⟨?_, ?_⟩
  · show max 0 (p.time_left - |e|) = p.time_left - |e|
    exact hmax
  · show max 0 (p.time_left - |e|) ≤ p.time_left
    rw [hmax]
    omega

/-- Witness for C2 (amended) at a concrete clock anomaly: WORK record
with `time_left = 100`, elapsed `-5`. -/
theorem C2_elapsed_subtraction_amended_witness :
    (update_status
        (⟨100, 0, TimerState.idle, TimerState.work⟩ : Pomodoro)
        (-5) false).1.time_left = (100 : Int) - |(-5 : Int)| ∧
    (update_status
        (⟨100, 0, TimerState.idle, TimerState.work⟩ : Pomodoro)
        (-5) false).1.time_left ≤ 100 :=
  C2_elapsed_subtraction_amended
    (⟨100, 0, TimerState.idle, TimerState.work⟩ : Pomodoro)
    (-5) false (Or.inl rfl) (by decide)

/-- C3: from the default IDLE record, `toggle` enters WORK with
`time_left = 1500`; advancing by 1501 seconds then yields SHORT_BREAK
with `time_left = 300`, `pomodoros = 1`, and exactly one notification. -/
theorem C3_work_completion_scenario :
    (toggle initPomodoro).status = TimerState.work ∧
    (toggle initPomodoro).time_left = 1500 ∧
    (update_status (toggle initPomodoro) 1501 false).1.status =
      TimerState.short_break ∧
    (update_status (toggle initPomodoro) 1501 false).1.time_left = 300 ∧
    (update_status (toggle initPomodoro) 1501 false).1.pomodoros = 1 ∧
    (update_status (toggle initPomodoro) 1501 false).2.length = 1 := by
  decide

/-- C4, as stated, is false on the code: the `except` tuple at line 190
names only `FileNotFoundError, PermissionError, EOFError,
pickle.UnpicklingError`.  A format-mismatched pickle whose decode raises
any other exception (e.g. `AttributeError`/`ImportError` for a missing
class) propagates out of `get_pomodoro` instead of yielding the default,
and a pickle that decodes to a non-record value is returned as-is
(`cast` is a no-op) instead of being replaced by the default. -/
theorem C4_load_failure_counterexample :
    get_pomodoro StorageRead.decodeUncaught = LoadOutcome.raised ∧
    get_pomodoro StorageRead.okNonRecord = LoadOutcome.returnedNonRecord ∧
    ¬ (get_pomodoro StorageRead.decodeUncaught =
        LoadOutcome.returned initPomodoro) ∧
    ¬ (get_pomodoro StorageRead.okNonRecord =
        LoadOutcome.returned initPomodoro) := by
  decide

/-- C4 (amended): `get_pomodoro` returns the fresh default record (IDLE,
`time_left = 0`, `pomodoros = 0`) without propagating an error exactly
for the outcomes the `except` tuple catches — absent file,
`FileNotFoundError`/`PermissionError` on open/read, and
`EOFError`/`pickle.UnpicklingError` on decode.  An open/read or decode
failure raising any exception outside that tuple propagates to the
caller, and a successful decode of a non-record value is returned as-is
rather than replaced by the default. -/
theorem C4_load_failure_amended :
    get_pomodoro StorageRead.absent = LoadOutcome.returned initPomodoro ∧
    get_pomodoro StorageRead.openCaught =
      LoadOutcome.returned initPomodoro ∧
    get_pomodoro StorageRead.decodeCaught =
      LoadOutcome.returned initPomodoro ∧
    initPomodoro.status = TimerState.idle ∧
    initPomodoro.time_left = 0 ∧
    initPomodoro.pomodoros = 0 ∧
    get_pomodoro StorageRead.openUncaught = LoadOutcome.raised ∧
    get_pomodoro StorageRead.decodeUncaught = LoadOutcome.raised ∧
    get_pomodoro StorageRead.okNonRecord =
      LoadOutcome.returnedNonRecord := by
  decide

/-- C5: from any active phase, one `toggle` yields PAUSED and a second
`toggle` resumes the same active phase, with `time_left` unchanged
throughout. -/
theorem C5_toggle_pause_resume (p : Pomodoro) (h : isActive p) :
    (toggle p).status = TimerState.paused ∧
    (toggle p).time_left = p.time_left ∧
    (toggle (toggle p)).status = p.status ∧
    (toggle (toggle p)).time_left = p.time_left := by
  rcases h with h | h | h <;>
    simp [toggle, setStatus, h]

/-- Witness for C5 at a concrete WORK record with `time_left = 42`. -/
theorem C5_toggle_pause_resume_witness :
    (toggle (⟨42, 7, TimerState.idle, TimerState.work⟩ : Pomodoro)).status =
      TimerState.paused ∧
    (toggle (⟨42, 7, TimerState.idle, TimerState.work⟩ : Pomodoro)).time_left
      = 42 ∧
    (toggle (toggle
      (⟨42, 7, TimerState.idle, TimerState.work⟩ : Pomodoro))).status =
      TimerState.work ∧
    (toggle (toggle
      (⟨42, 7, TimerState.idle, TimerState.work⟩ : Pomodoro))).time_left =
      42 :=
  C5_toggle_pause_resume
    (⟨42, 7, TimerState.idle, TimerState.work⟩ : Pomodoro) (Or.inl rfl)

/-- C9: `stop` always yields IDLE with `time_left = 0` while preserving
`pomodoros` exactly, whereas `reset` also zeroes `pomodoros`. -/
theorem C9_stop_preserves_pomodoros (p : Pomodoro) :
    (stop p).status = TimerState.idle ∧
    (stop p).time_left = 0 ∧
    (stop p).pomodoros = p.pomodoros ∧
    (reset p).status = TimerState.idle ∧
    (reset p).time_left = 0 ∧
    (reset p).pomodoros = 0 := by
  simp [stop, reset, setStatus]

/-- `next_break` always grants the long-break or the short-break
duration. -/
theorem next_break_time_left (p : Pomodoro) :
    (next_break p).time_left = LONG_BREAK ∨
      (next_break p).time_left = SHORT_BREAK := by
  simp only [next_break]
  split_ifs
  · exact Or.inl rfl
  · exact Or.inr rfl

/-- `next_break` assigns its new status through the setter, so it records
the incoming status in `previous_status`. -/
theorem next_break_previous_status (p : Pomodoro) :
    (next_break p).previous_status = p.status := by
  simp only [next_break]
  split_ifs <;> rfl

/-- C6: the automatic transition is edge-triggered.  For every record in
an active phase whose `time_left` is already 0, advancing with zero
further elapsed time changes no field and emits no notification. -/
theorem C6_edge_triggered_no_refire (r : Pomodoro) (b : Bool)
    (h : isActive r) (h0 : r.time_left = 0) :
    (update_status r 0 b).1 = r ∧ (update_status r 0 b).2 = [] := by
  have hmax : max 0 (r.time_left - |(0 : Int)|) = r.time_left := by
    rw [h0]; simp
  unfold isActive at h
  rw [update_status_eq_core]
  unfold update_status_core
  rw [if_pos h, if_neg (by rw [h0]; simp)]
  refine ⟨?_, rfl⟩
  show ({ r with time_left := max 0 (r.time_left - |(0 : Int)|) } :
      Pomodoro) = r
  rw [hmax]

/-- Witness for C6: a WORK record with `time_left = 0` and 3 completed
pomodoros is left untouched by a zero-elapsed advance. -/
theorem C6_edge_triggered_no_refire_witness :
    (update_status (⟨0, 3, TimerState.idle, TimerState.work⟩ : Pomodoro)
        0 false).1 = (⟨0, 3, TimerState.idle, TimerState.work⟩ : Pomodoro) ∧
    (update_status (⟨0, 3, TimerState.idle, TimerState.work⟩ : Pomodoro)
        0 false).2 = [] :=
  C6_edge_triggered_no_refire
    (⟨0, 3, TimerState.idle, TimerState.work⟩ : Pomodoro) false
    (Or.inl rfl) rfl

/-- C7: every operation preserves `time_left ≥ 0`, and `advance` in
particular never produces a negative `time_left` for any elapsed time. -/
theorem C7_time_left_nonneg (op : Op) (r : Pomodoro)
    (h : 0 ≤ r.time_left) : 0 ≤ (applyOp op r).time_left := by
  cases op with
  | advance e b =>
    simp only [applyOp]
    rw [update_status_eq_core]
    unfold update_status_core
    split_ifs with h1 h2 h3
    · rcases next_break_time_left
        ({ r with time_left := max 0 (r.time_left - |e|) }) with h4 | h4 <;>
        rw [h4] <;> decide
    · show (0 : Int) ≤ POMODORO
      decide
    · show (0 : Int) ≤ max 0 (r.time_left - |e|)
      exact le_max_left _ _
    · exact h
  | toggle =>
    simp only [applyOp]
    unfold toggle
    split_ifs
    · show (0 : Int) ≤ POMODORO
      decide
    · exact h
    · exact h
  | skip =>
    simp only [applyOp]
    unfold skip
    split_ifs
    · show (0 : Int) ≤ POMODORO
      decide
    · rcases next_break_time_left r with h4 | h4 <;> rw [h4] <;> decide
  | reset =>
    simp only [applyOp]
    show (0 : Int) ≤ 0
    decide
  | stop =>
    simp only [applyOp]
    show (0 : Int) ≤ 0
    decide
  | next_break =>
    simp only [applyOp]
    rcases next_break_time_left r with h4 | h4 <;> rw [h4] <;> decide

/-- Witness for C7: advancing a WORK record with `time_left = 5` by 10
seconds leaves a non-negative `time_left`. -/
theorem C7_time_left_nonneg_witness :
    0 ≤ (applyOp (Op.advance 10 false)
        (⟨5, 0, TimerState.idle, TimerState.work⟩ : Pomodoro)).time_left :=
  C7_time_left_nonneg (Op.advance 10 false)
    (⟨5, 0, TimerState.idle, TimerState.work⟩ : Pomodoro) (by decide)

/-- C8: every status assignment goes through the setter, so after any
operation that changes `status`, `previous_status` equals the status held
immediately before the operation. -/
theorem C8_previous_status_tracks (op : Op) (r : Pomodoro)
    (h : (applyOp op r).status ≠ r.status) :
    (applyOp op r).previous_status = r.status := by
  cases op with
  | advance e b =>
    simp only [applyOp] at h ⊢
    rw [update_status_eq_core] at h ⊢
    unfold update_status_core at h ⊢
    split_ifs at h ⊢ with h1 h2 h3
    · exact next_break_previous_status _
    · rfl
    · exact absurd rfl h
    · exact absurd rfl h
  | toggle =>
    simp only [applyOp] at h ⊢
    unfold toggle at h ⊢
    split_ifs at h ⊢ <;> rfl
  | skip =>
    simp only [applyOp] at h ⊢
    unfold skip at h ⊢
    split_ifs at h ⊢ with h1
    · rfl
    · exact next_break_previous_status r
  | reset =>
    simp only [applyOp] at h ⊢
    rfl
  | stop =>
    simp only [applyOp] at h ⊢
    rfl
  | next_break =>
    simp only [applyOp] at h ⊢
    exact next_break_previous_status r

/-- Witness for C8: `toggle` from the default IDLE record changes status
to WORK and records IDLE in `previous_status`. -/
theorem C8_previous_status_tracks_witness :
    (applyOp Op.toggle initPomodoro).previous_status =
      initPomodoro.status :=
  C8_previous_status_tracks Op.toggle initPomodoro (by decide)

/-- C10: every notification of an invocation comes from `update_status`
(the explicit toggle/skip/reset/stop commands emit none), and
`update_status` emits one only during an automatic transition — the
record was in an active phase with `time_left > 0` and the elapsed time
drove it to 0. -/
theorem C10_notifications_only_automatic (a : Action) (p : Pomodoro)
    (e : Int) (b : Bool) :
    (main_invocation a p e b).2 = (update_status p e b).2 ∧
    ((update_status p e b).2 ≠ [] →
      isActive p ∧ 0 < p.time_left ∧ p.time_left - |e| ≤ 0) := by
  refine ⟨rfl, ?_⟩
  intro hne
  rw [update_status_eq_core] at hne
  unfold update_status_core at hne
  split_ifs at hne with h1 h2 h3
  · exact ⟨h1, h2.2, by
      have := le_max_right 0 (p.time_left - |e|)
      omega⟩
  · exact ⟨h1, h2.2, by
      have := le_max_right 0 (p.time_left - |e|)
      omega⟩
  · exact absurd rfl hne
  · exact absurd rfl hne

/-- Witness for C10: a WORK record with one second left, advanced by one
second, fires its notification from `update_status`; the invocation adds
none. -/
theorem C10_notifications_only_automatic_witness :
    (main_invocation Action.status
        (⟨1, 0, TimerState.idle, TimerState.work⟩ : Pomodoro) 1 false).2 =
      (update_status
        (⟨1, 0, TimerState.idle, TimerState.work⟩ : Pomodoro) 1 false).2 ∧
    (isActive (⟨1, 0, TimerState.idle, TimerState.work⟩ : Pomodoro) ∧
      0 < (Pomodoro.time_left
        (⟨1, 0, TimerState.idle, TimerState.work⟩ : Pomodoro)) ∧
      (Pomodoro.time_left
        (⟨1, 0, TimerState.idle, TimerState.work⟩ : Pomodoro)) -
        |(1 : Int)| ≤ 0) :=
  ⟨(C10_notifications_only_automatic Action.status
      (⟨1, 0, TimerState.idle, TimerState.work⟩ : Pomodoro) 1 false).1,
   (C10_notifications_only_automatic Action.status
      (⟨1, 0, TimerState.idle, TimerState.work⟩ : Pomodoro) 1 false).2
     (by decide)⟩

end PomodoroSpec
